import Mathlib

/-!
Verification of the YOLOv5 `.pt -> .onnx` export shim (`README.py`).

The program is a single-pass command-line tool: it parses flags, checks the
weights file and the `onnx` library, patches `pathlib`, stubs optional
packages in `sys.modules`, puts the local `yolov5` checkout on `sys.path`,
sets two environment toggles, and finally runs `yolov5/export.py` in-process
via `runpy` with a synthesized `sys.argv`.

The shallow embedding below models the mutable interpreter state (`sys.modules`,
`sys.path`, `sys.argv`, `os.environ`, the `pathlib` module's `WindowsPath`
attribute, printed output) as an explicit `World` record, and each function of
the source as a `World` transformer.  The delegated `runpy.run_path` call is
opaque to the shim and is modelled as a function parameter that returns the
world it leaves behind together with an optional uncaught exception.
-/

/-- A Python attribute value, at the granularity the shim manipulates:
the `_noop` function, the `_DF` class, the
`types.SimpleNamespace(display=types.SimpleNamespace(max_columns, max_rows,
max_colwidth))` object assigned to `pandas.options`, plus opaque values for
attributes owned by pre-existing genuine modules. -/
inductive PyVal where
  | strv (s : String)
  | intv (n : Int)
  | noopFn
  | dfClass
  | optionsNamespace (maxColumns maxRows maxColwidth : Int)
  | otherVal (n : Nat)
deriving DecidableEq, Repr

/-- A Python module object: its attribute dictionary (in insertion order,
`setattr` updates in place or appends). -/
structure PyModule where
  attrs : List (String × PyVal)
deriving DecidableEq, Repr

/-- An entry of `sys.modules`: either a reference to the distinguished
`pathlib` module object (whose `WindowsPath` attribute lives in `World`),
or an ordinary module value (a fresh stub or a pre-existing module). -/
inductive ModRef where
  | pathlibM
  | plain (m : PyModule)
deriving DecidableEq, Repr

/-- One of the classes the `pathlib` module's `WindowsPath` attribute can be
bound to. -/
inductive PathClass where
  | posixPath
  | windowsPath
  | otherClass (n : Nat)
deriving DecidableEq, Repr

/-- The process state the shim reads and mutates:
`sys.modules`, `sys.path`, `sys.argv`, `os.environ`, what has been printed,
the filesystem (sets of existing files and directories), `os.path.expanduser`'s
home directory, `os.name`, whether `import onnx` succeeds, and the `pathlib`
module's `WindowsPath` attribute (`none` = attribute absent). -/
structure World where
  sysModules : List (String × ModRef)
  sysPath : List String
  sysArgv : List String
  environ : List (String × String)
  printed : List String
  files : List String
  dirs : List String
  homeDir : String
  osName : String
  onnxImportable : Bool
  pathlibWindowsPath : Option PathClass
deriving DecidableEq, Repr

/-- `str.startswith`, computed on the underlying character list (the library
versions of these string primitives do not reduce inside proofs). -/
def strStartsWith (s p : String) : Bool := p.data.isPrefixOf s.data

/-- `str.endswith`, computed on the underlying character list. -/
def strEndsWith (s p : String) : Bool := p.data.isSuffixOf s.data

/-- Dropping the first `n` characters of a string (`s[n:]`), computed on the
underlying character list. -/
def strDrop (s : String) (n : Nat) : String := ⟨s.data.drop n⟩

/-- `os.path.expanduser`: a leading `~` (bare or followed by `/`) is replaced
by the home directory; other paths are returned unchanged.  (The `~user` form
is not used by this program.) -/
def expanduser (home p : String) : String :=
  if p = "~" then home
  else if strStartsWith p "~/" then home ++ strDrop p 1
  else p

/-- `os.path.join` for the two-argument uses in this program. -/
def joinPath (a b : String) : String :=
  if strStartsWith b "/" then b
  else if a = "" then b
  else if strEndsWith a "/" then a ++ b
  else a ++ "/" ++ b

/-- `dict.setdefault` on the `sys.modules` mapping: keep an existing entry,
otherwise bind the name. -/
def setdefaultMod (ms : List (String × ModRef)) (n : String) (m : ModRef) :
    List (String × ModRef) :=
  if (ms.lookup n).isSome then ms else ms ++ [(n, m)]

/-- `os.environ.setdefault`. -/
def setdefaultEnv (env : List (String × String)) (k v : String) :
    List (String × String) :=
  if (env.lookup k).isSome then env else env ++ [(k, v)]

/-- `setattr` on an attribute dictionary: update in place if present,
append otherwise. -/
def setAttr (attrs : List (String × PyVal)) (a : String) (v : PyVal) :
    List (String × PyVal) :=
  if (attrs.lookup a).isSome then
    attrs.map (fun p => if p.1 = a then (p.1, v) else p)
  else attrs ++ [(a, v)]

/-- `setattr` through a module reference.  The shim only ever sets attributes
on the modules registered as `pandas` and `matplotlib.pyplot`. -/
def setRefAttr (r : ModRef) (a : String) (v : PyVal) : ModRef :=
  match r with
  | .pathlibM => .pathlibM
  | .plain m => .plain ⟨setAttr m.attrs a v⟩

/-- Set attribute `a` of the module registered under `n` (`mod = sys.modules[n];
mod.a = v`): the registry keeps the same object, whose attribute dict changes. -/
def setModAttr (ms : List (String × ModRef)) (n a : String) (v : PyVal) :
    List (String × ModRef) :=
  ms.map (fun p => if p.1 = n then (p.1, setRefAttr p.2 a v) else p)

/-- `ensure_stub` (README.py lines 30-35): if `fullname` is already in
`sys.modules`, return the registry unchanged; otherwise register a fresh empty
`types.ModuleType(fullname)` under it. -/
def ensure_stub (ms : List (String × ModRef)) (fullname : String) :
    List (String × ModRef) :=
  if (ms.lookup fullname).isSome then ms
  else ms ++ [(fullname, ModRef.plain ⟨[]⟩)]

/-- The nine names stubbed by the `for name in [...]` loop
(README.py lines 78-83). -/
def stubNames : List String :=
  ["seaborn", "numexpr", "bottleneck", "scipy",
   "albumentations", "pycocotools", "thop",
   "cycler", "pyparsing"]

/-- The effect of `stub_optional_packages` (README.py lines 23-88) on
`sys.modules`, statement by statement in source order: `pandas` with
`options`/`DataFrame`/`Series`, the `matplotlib` family with the no-op
`pyplot` functions, the nine plain stubs, and the nested `torchvision`
modules.  (The `try`/`except` around the `pandas` attribute writes only
guards against attribute-setting failures, which cannot occur here.) -/
def stubModules (ms₀ : List (String × ModRef)) : List (String × ModRef) :=
  let ms := ensure_stub ms₀ "pandas"
  let ms := setModAttr ms "pandas" "options" (.optionsNamespace 10 60 50)
  let ms := setModAttr ms "pandas" "DataFrame" .dfClass
  let ms := setModAttr ms "pandas" "Series" .dfClass
  let ms := ensure_stub ms "matplotlib"
  let ms := ensure_stub ms "matplotlib.colors"
  let ms := ensure_stub ms "matplotlib.ticker"
  let ms := ensure_stub ms "matplotlib.transforms"
  let ms := ensure_stub ms "matplotlib.pyplot"
  let ms := setModAttr ms "matplotlib.pyplot" "figure" .noopFn
  let ms := setModAttr ms "matplotlib.pyplot" "plot" .noopFn
  let ms := setModAttr ms "matplotlib.pyplot" "imshow" .noopFn
  let ms := setModAttr ms "matplotlib.pyplot" "savefig" .noopFn
  let ms := setModAttr ms "matplotlib.pyplot" "close" .noopFn
  let ms := setModAttr ms "matplotlib.pyplot" "title" .noopFn
  let ms := setModAttr ms "matplotlib.pyplot" "subplot" .noopFn
  let ms := setModAttr ms "matplotlib.pyplot" "axis" .noopFn
  let ms := List.foldl ensure_stub ms stubNames
  let ms := ensure_stub ms "torchvision"
  let ms := ensure_stub ms "torchvision.transforms"
  let ms := ensure_stub ms "torchvision.transforms.functional"
  ms

/-- `stub_optional_packages` as a `World` transformer: it touches only
`sys.modules`. -/
def stub_optional_packages (w : World) : World :=
  { w with sysModules := stubModules w.sysModules }

/-- `patch_pathlib_only` (README.py lines 14-21):
`sys.modules.setdefault('pathlib._local', pathlib)`, then on a non-Windows
system where `pathlib` has a `WindowsPath` attribute, rebind it to
`PosixPath`.  (The `try`/`except Exception: pass` around the rebinding only
guards against the assignment failing, which cannot occur here.) -/
def patch_pathlib_only (w : World) : World :=
  let w₁ := { w with
    sysModules := setdefaultMod w.sysModules "pathlib._local" ModRef.pathlibM }
  if w₁.osName != "nt" && w₁.pathlibWindowsPath.isSome then
    { w₁ with pathlibWindowsPath := some PathClass.posixPath }
  else w₁

/-- `ensure_repo_on_path` (README.py lines 6-12): resolve `~/yolov5`; raise
`SystemExit` with a diagnostic if it is not a directory; insert it at the
front of `sys.path` only if it is not already present; return it. -/
def ensure_repo_on_path (w : World) : Except String (String × World) :=
  let repo := expanduser w.homeDir "~/yolov5"
  if w.dirs.contains repo = false then
    .error ("[ERR] 找不到 YOLOv5 目錄：" ++ repo)
  else if w.sysPath.contains repo then .ok (repo, w)
  else .ok (repo, { w with sysPath := repo :: w.sysPath })

/-- A successful `import onnx` caches the `onnx` module in `sys.modules`
(already-cached imports are returned as-is); the module's own contents are
opaque to the shim. -/
def importOnnx (w : World) : World :=
  { w with
    sysModules :=
      setdefaultMod w.sysModules "onnx" (.plain ⟨[("__name__", .strv "onnx")]⟩) }

/-- The two `os.environ.setdefault` calls (README.py lines 120-121). -/
def setEnvDefaults (w : World) : World :=
  { w with
    environ :=
      setdefaultEnv (setdefaultEnv w.environ "YOLOV5_AUTOINSTALL" "0")
        "ULTRALYTICS_NO_AUTOINSTALL" "1" }

/-- The parsed command configuration (argparse result, README.py lines 93-100):
`--weights` (required), `--imgsz` (default 640), `--opset` (default 12),
`--dynamic` and `--simplify` (store-true flags). -/
structure Args where
  weights : String
  imgsz : Int
  opset : Int
  dynamic : Bool
  simplify : Bool
deriving DecidableEq, Repr

/-- The synthesized argument vector (README.py lines 123-133). -/
def buildArgv (repo wpath : String) (args : Args) : List String :=
  [joinPath repo "export.py",
   "--weights", wpath,
   "--include", "onnx",
   "--imgsz", toString args.imgsz,
   "--opset", toString args.opset]
  ++ (if args.dynamic then ["--dynamic"] else [])
  ++ (if args.simplify then ["--simplify"] else [])

/-- The line printed by `print("[info] 呼叫 yolov5/export.py：", " ".join(argv))`. -/
def infoLine (argv : List String) : String :=
  "[info] 呼叫 yolov5/export.py：" ++ " " ++ String.intercalate " " argv

/-- The completion notice printed after the delegated script returns. -/
def okMsg : String := "\n[OK] 轉檔完成（.onnx 會與 .pt 同資料夾）。"

/-- The delegated `runpy.run_path(repo/export.py, run_name='__main__')` call,
opaque to the shim: given the argument vector and the world at the call, it
produces the world it leaves behind and either `none` (normal return) or
`some e` (it raised exception `e`). -/
def RunFn : Type := List String → World → World × Option String

/-- Outcome of running `main`: `exitErr msg w` is `raise SystemExit(msg)`
(exit status 1) with final world `w`; `propagated e w argv` is an exception
of the delegated script escaping uncaught (non-zero exit status) after it was
invoked with `argv`; `ok w argv` is a normal return (exit status 0) after the
delegated script was invoked with `argv`. -/
inductive MainResult where
  | exitErr (msg : String) (w : World)
  | propagated (e : String) (w : World) (argv : List String)
  | ok (w : World) (argv : List String)
deriving DecidableEq, Repr

/-- Whether the process exits with a non-zero status. -/
def MainResult.exitedNonzero : MainResult → Bool
  | .exitErr _ _ => true
  | .propagated _ _ _ => true
  | .ok _ _ => false

/-- The argument vector the delegated export script was invoked with,
`none` when it was never invoked. -/
def MainResult.callArgv : MainResult → Option (List String)
  | .exitErr _ _ => none
  | .propagated _ _ argv => some argv
  | .ok _ argv => some argv

/-- The final world of a run. -/
def MainResult.world : MainResult → World
  | .exitErr _ w => w
  | .propagated _ w _ => w
  | .ok w _ => w

/-- The lines printed when the process terminates. -/
def MainResult.output (r : MainResult) : List String := r.world.printed

/-- The world at the `runpy.run_path` call (README.py lines 120-137 up to the
call): environment toggles set, the info line printed, `sys.argv` replaced by
the synthesized vector. -/
def preRunWorld (repo wpath : String) (args : Args) (w : World) : World :=
  let w₄ := setEnvDefaults w
  let argv := buildArgv repo wpath args
  { w₄ with
    sysArgv := argv,
    printed := w₄.printed ++ [infoLine argv] }

/-- README.py lines 120-138: set the environment toggles, synthesize the
argument vector, print the info line, set `sys.argv`, run the export script
in-process, and print the completion notice only on normal return; an
exception of the script is not caught. -/
def invokeExport (repo wpath : String) (args : Args) (run : RunFn)
    (w : World) : MainResult :=
  let argv := buildArgv repo wpath args
  match run argv (preRunWorld repo wpath args w) with
  | (we, some e) => .propagated e we argv
  | (we, none) => .ok { we with printed := we.printed ++ [okMsg] } argv

/-- `main` (README.py lines 92-138) after argument parsing: expand the
weights path and check it is a file, check `import onnx` succeeds (the
imported module is cached), patch `pathlib`, stub the packages, put the
repo on `sys.path`, then invoke the export script. -/
def mainFn (args : Args) (run : RunFn) (w : World) : MainResult :=
  let wpath := expanduser w.homeDir args.weights
  if w.files.contains wpath = false then
    .exitErr ("[ERR] 找不到權重：" ++ wpath) w
  else if w.onnxImportable = false then
    .exitErr "[ERR] 尚未安裝 onnx，請先：pip install onnx" w
  else
    let w₂ := stub_optional_packages (patch_pathlib_only (importOnnx w))
    match ensure_repo_on_path w₂ with
    | .error msg => .exitErr msg w₂
    | .ok (repo, w₃) => invokeExport repo wpath args run w₃

/-! ## Lookup lemmas for the association-list state -/

/-- `lookup` distributes over append: the left list wins. -/
theorem lookup_append {α β : Type} [BEq α] (a : α) (l₁ l₂ : List (α × β)) :
    (l₁ ++ l₂).lookup a =
      (match l₁.lookup a with
       | some b => some b
       | none => l₂.lookup a) := by
  induction l₁ with
  | nil => rfl
  | cons p t ih =>
    obtain ⟨k, b⟩ := p
    cases hpa : a == k with
    | true => simp [List.lookup, hpa]
    | false => simp [List.lookup, hpa, ih]

/-- `ensure_stub` never changes the binding of a name that is registered. -/
theorem es_lookup_eq (ms : List (String × ModRef)) (m n : String)
    (hs : (ms.lookup n).isSome = true) :
    (ensure_stub ms m).lookup n = ms.lookup n := by
  unfold ensure_stub
  split
  · rfl
  · rw [lookup_append]
    cases hl : ms.lookup n with
    | some b => rfl
    | none => rw [hl] at hs; cases hs

/-- After `ensure_stub ms m`, a name is registered iff it was registered
before or it is `m`. -/
theorem es_isSome_or (ms : List (String × ModRef)) (m n : String) :
    ((ensure_stub ms m).lookup n).isSome = ((ms.lookup n).isSome || n == m) := by
  unfold ensure_stub
  split
  · rename_i h
    cases hnm : n == m with
    | false => simp
    | true =>
      have hn : n = m := by simpa using hnm
      subst hn
      simp [h]
  · rw [lookup_append]
    cases hl : ms.lookup n with
    | some b => simp
    | none =>
      cases hnm : n == m with
      | true => simp [List.lookup, hnm]
      | false => simp [List.lookup, hnm]

/-- `setModAttr` preserves which names are registered. -/
theorem sma_isSome (ms : List (String × ModRef)) (m a : String) (v : PyVal)
    (n : String) :
    ((setModAttr ms m a v).lookup n).isSome = ((ms.lookup n).isSome) := by
  induction ms with
  | nil => rfl
  | cons p t ih =>
    obtain ⟨k, r⟩ := p
    simp only [setModAttr, List.map_cons]
    by_cases hkm : k = m
    · rw [if_pos hkm]
      cases hnk : n == k with
      | true => simp [List.lookup, hnk]
      | false =>
        simp only [List.lookup, hnk]
        exact ih
    · rw [if_neg hkm]
      cases hnk : n == k with
      | true => simp [List.lookup, hnk]
      | false =>
        simp only [List.lookup, hnk]
        exact ih

/-- `setModAttr` on module `m` does not change the binding of any other name. -/
theorem sma_lookup_ne {ms : List (String × ModRef)} {m a : String} {v : PyVal}
    {n : String} (h : n ≠ m) :
    (setModAttr ms m a v).lookup n = ms.lookup n := by
  induction ms with
  | nil => rfl
  | cons p t ih =>
    obtain ⟨k, r⟩ := p
    simp only [setModAttr, List.map_cons]
    by_cases hkm : k = m
    · have hnk : (n == k) = false := by
        subst hkm
        simpa using h
      rw [if_pos hkm]
      simp only [List.lookup, hnk]
      exact ih
    · rw [if_neg hkm]
      cases hnk : n == k with
      | true => simp [List.lookup, hnk]
      | false =>
        simp only [List.lookup, hnk]
        exact ih

/-- Folding `ensure_stub` over a list of names never changes the binding of a
name that is registered. -/
theorem foldl_es_lookup_eq (l : List String) (ms : List (String × ModRef))
    (n : String) (hs : (ms.lookup n).isSome = true) :
    (l.foldl ensure_stub ms).lookup n = ms.lookup n := by
  induction l generalizing ms with
  | nil => rfl
  | cons m t ih =>
    rw [List.foldl_cons,
        ih _ (by rw [es_lookup_eq _ _ _ hs]; exact hs),
        es_lookup_eq _ _ _ hs]

/-- After folding `ensure_stub` over a list of names, a name is registered iff
it was registered before or it occurs in the list. -/
theorem foldl_es_isSome_or (l : List String) (ms : List (String × ModRef))
    (n : String) :
    ((l.foldl ensure_stub ms).lookup n).isSome
      = ((ms.lookup n).isSome || l.contains n) := by
  induction l generalizing ms with
  | nil => simp
  | cons m t ih =>
    rw [List.foldl_cons, ih, es_isSome_or]
    cases hnm : n == m with
    | true =>
      have he : n = m := by simpa using hnm
      simp [List.contains, hnm, he, Bool.or_assoc, Bool.or_comm,
        Bool.or_left_comm]
    | false =>
      have he : ¬n = m := by simpa using hnm
      simp [List.contains, hnm, he, Bool.or_assoc, Bool.or_comm,
        Bool.or_left_comm]

/-- `setdefaultMod` binds an unbound name. -/
theorem sdm_lookup_of_none (ms : List (String × ModRef)) (n : String)
    (m : ModRef) (h : ms.lookup n = none) :
    (setdefaultMod ms n m).lookup n = some m := by
  unfold setdefaultMod
  rw [h]
  simp [lookup_append, h, List.lookup]

/-- `setdefaultMod` keeps the existing binding of a bound name. -/
theorem sdm_lookup_of_some (ms : List (String × ModRef)) (n : String)
    (m r : ModRef) (h : ms.lookup n = some r) :
    (setdefaultMod ms n m).lookup n = some r := by
  unfold setdefaultMod
  rw [h]
  simpa using h

/-- `os.environ.setdefault` binds an unbound key. -/
theorem sde_lookup_of_none (env : List (String × String)) (k v : String)
    (h : env.lookup k = none) :
    (setdefaultEnv env k v).lookup k = some v := by
  unfold setdefaultEnv
  rw [h]
  simp [lookup_append, h, List.lookup]

/-- `os.environ.setdefault` keeps the existing binding of a bound key. -/
theorem sde_lookup_of_some (env : List (String × String)) (k v w : String)
    (h : env.lookup k = some w) :
    (setdefaultEnv env k v).lookup k = some w := by
  unfold setdefaultEnv
  rw [h]
  simpa using h

/-- `os.environ.setdefault` does not touch other keys. -/
theorem sde_lookup_ne (env : List (String × String)) (k v k₂ : String)
    (h : k₂ ≠ k) :
    (setdefaultEnv env k v).lookup k₂ = env.lookup k₂ := by
  unfold setdefaultEnv
  split
  · rfl
  · rw [lookup_append]
    cases hl : env.lookup k₂ with
    | some b => rfl
    | none =>
      have hb : (k₂ == k) = false := by simpa using h
      simp [List.lookup, hb]

/-! ## Frame lemmas: which `World` fields each step leaves alone -/

/-- `import onnx` only touches `sys.modules`. -/
theorem importOnnx_dirs (w : World) : (importOnnx w).dirs = w.dirs := rfl

theorem importOnnx_homeDir (w : World) : (importOnnx w).homeDir = w.homeDir :=
  rfl

/-- `patch_pathlib_only` performs exactly the `setdefault` on `sys.modules`
(in both branches of the platform test). -/
theorem patch_sysModules (w : World) :
    (patch_pathlib_only w).sysModules
      = setdefaultMod w.sysModules "pathlib._local" ModRef.pathlibM := by
  by_cases h : (w.osName != "nt" && w.pathlibWindowsPath.isSome) = true
  · simp [patch_pathlib_only, h]
  · simp [patch_pathlib_only, h]

theorem patch_dirs (w : World) : (patch_pathlib_only w).dirs = w.dirs := by
  by_cases h : (w.osName != "nt" && w.pathlibWindowsPath.isSome) = true
  · simp [patch_pathlib_only, h]
  · simp [patch_pathlib_only, h]

theorem patch_homeDir (w : World) :
    (patch_pathlib_only w).homeDir = w.homeDir := by
  by_cases h : (w.osName != "nt" && w.pathlibWindowsPath.isSome) = true
  · simp [patch_pathlib_only, h]
  · simp [patch_pathlib_only, h]

theorem stub_dirs (w : World) : (stub_optional_packages w).dirs = w.dirs := by
  simp only [stub_optional_packages]

theorem stub_homeDir (w : World) :
    (stub_optional_packages w).homeDir = w.homeDir := by
  simp only [stub_optional_packages]

theorem stub_sysModules (w : World) :
    (stub_optional_packages w).sysModules = stubModules w.sysModules := by
  simp only [stub_optional_packages]

/-! ## Concrete states used to evaluate the theorems -/

/-- A minimal baseline state: empty registry, path, environment and output;
POSIX system with a `WindowsPath` attribute on `pathlib`; `onnx` installed. -/
def w₀ : World :=
  { sysModules := [], sysPath := [], sysArgv := [], environ := [],
    printed := [], files := [], dirs := [], homeDir := "/home/pi",
    osName := "posix", onnxImportable := true,
    pathlibWindowsPath := some PathClass.windowsPath }

/-- The full fixed stub list: every name `stub_optional_packages` registers. -/
def stubList : List String :=
  ["pandas", "matplotlib", "matplotlib.colors", "matplotlib.ticker",
   "matplotlib.transforms", "matplotlib.pyplot",
   "seaborn", "numexpr", "bottleneck", "scipy",
   "albumentations", "pycocotools", "thop", "cycler", "pyparsing",
   "torchvision", "torchvision.transforms",
   "torchvision.transforms.functional"]

/-- C4: after running the Dependency Stubber, every name on the fixed stub
list is registered in `sys.modules` (hence resolvable as an importable module
without error) — in any prior state, in particular one where none of them was
registered. -/
theorem stub_registers_all_listed (w : World) (n : String)
    (hn : n ∈ stubList) :
    (((stub_optional_packages w).sysModules).lookup n).isSome = true := by
  rw [stub_sysModules]
  simp only [stubList] at hn
  fin_cases hn <;>
    simp [stubModules, es_isSome_or, sma_isSome, foldl_es_isSome_or, stubNames]

/-- C4 witness: on the empty registry, `pandas` is registered after stubbing. -/
theorem stub_registers_all_listed_witness :
    (((stub_optional_packages w₀).sysModules).lookup "pandas").isSome = true :=
  stub_registers_all_listed w₀ "pandas" (by decide)

/-- A state in which a genuine `pandas` module (with its own `DataFrame`
attribute) is already registered before the stubber runs. -/
def pandasPreWorld : World :=
  { w₀ with
    sysModules := [("pandas", ModRef.plain ⟨[("DataFrame", PyVal.otherVal 0)]⟩)] }

/-- C2 counterexample: with a genuine `pandas` already registered, the
stubber does NOT leave that module unchanged — `ensure_stub` returns the
existing module and the shim then overwrites `options`, `DataFrame` and
`Series` on it.  The claim "it never overrides a genuine installation" is
therefore false as stated. -/
theorem stub_overrides_preexisting_pandas :
    (stub_optional_packages pandasPreWorld).sysModules.lookup "pandas"
      ≠ pandasPreWorld.sysModules.lookup "pandas" := by decide

/-- C2 (amended): a pre-registered name on the stub list keeps its registry
entry registered, and for every name other than `pandas` and
`matplotlib.pyplot` the registered module is left wholly unchanged; `pandas`
and `matplotlib.pyplot`, however, have the stub attributes written onto the
pre-registered module. -/
theorem stub_preserves_other_registered (ms : List (String × ModRef))
    (n : String) (hs : (ms.lookup n).isSome = true) :
    ((stubModules ms).lookup n).isSome = true ∧
      (n ≠ "pandas" → n ≠ "matplotlib.pyplot" →
        (stubModules ms).lookup n = ms.lookup n) := by
  constructor
  · simp [stubModules, es_isSome_or, sma_isSome, foldl_es_isSome_or, hs]
  · intro hp hq
    simp only [stubModules]
    simp [es_lookup_eq, sma_lookup_ne, foldl_es_lookup_eq, hs, hp, hq,
      es_isSome_or, sma_isSome, foldl_es_isSome_or]

/-- C2 witness: a pre-registered `scipy` module survives stubbing unchanged. -/
theorem stub_preserves_other_registered_witness :
    ((stubModules [("scipy", ModRef.plain ⟨[("version", PyVal.strv "1.7")]⟩)]).lookup
        "scipy").isSome = true ∧
      (stubModules [("scipy", ModRef.plain ⟨[("version", PyVal.strv "1.7")]⟩)]).lookup
          "scipy"
        = [("scipy", ModRef.plain ⟨[("version", PyVal.strv "1.7")]⟩)].lookup "scipy" :=
  ⟨(stub_preserves_other_registered _ "scipy" (by decide)).1,
   (stub_preserves_other_registered _ "scipy" (by decide)).2
     (by decide) (by decide)⟩

/-- A state in which the name `pathlib._local` is already registered (bound
to some module other than `pathlib`) before the patcher runs. -/
def localPreWorld : World :=
  { w₀ with sysModules := [("pathlib._local", ModRef.plain ⟨[]⟩)] }

/-- C5 counterexample: `sys.modules.setdefault('pathlib._local', pathlib)`
keeps an existing registration, so it is NOT true that in every run the
registry maps `pathlib._local` to the `pathlib` module. -/
theorem patch_keeps_existing_local_alias :
    (patch_pathlib_only localPreWorld).sysModules.lookup "pathlib._local"
      ≠ some ModRef.pathlibM := by decide

/-- C5 (amended): on a non-Windows system where `pathlib` defines
`WindowsPath`, the patcher rebinds `pathlib.WindowsPath` to `PosixPath`; and
the registry maps `pathlib._local` to the `pathlib` module whenever that name
was not already registered — an existing registration is kept as-is. -/
theorem patch_pathlib_effects (w : World) :
    (w.osName ≠ "nt" → w.pathlibWindowsPath.isSome = true →
      (patch_pathlib_only w).pathlibWindowsPath = some PathClass.posixPath) ∧
    (w.sysModules.lookup "pathlib._local" = none →
      (patch_pathlib_only w).sysModules.lookup "pathlib._local"
        = some ModRef.pathlibM) ∧
    (∀ r, w.sysModules.lookup "pathlib._local" = some r →
      (patch_pathlib_only w).sysModules.lookup "pathlib._local" = some r) := by
  refine ⟨?_, ?_, ?_⟩
  · intro h₁ h₂
    have hc : (w.osName != "nt" && w.pathlibWindowsPath.isSome) = true := by
      simp [h₁, h₂]
    simp [patch_pathlib_only, hc]
  · intro h
    rw [patch_sysModules]
    exact sdm_lookup_of_none _ _ _ h
  · intro r h
    rw [patch_sysModules]
    exact sdm_lookup_of_some _ _ _ _ h

/-- C5 witness: on the baseline POSIX state, the patch rebinds `WindowsPath`
to `PosixPath` and registers the `pathlib._local` alias. -/
theorem patch_pathlib_effects_witness :
    (patch_pathlib_only w₀).pathlibWindowsPath = some PathClass.posixPath ∧
    (patch_pathlib_only w₀).sysModules.lookup "pathlib._local"
      = some ModRef.pathlibM :=
  ⟨(patch_pathlib_effects w₀).1 (by decide) (by decide),
   (patch_pathlib_effects w₀).2.1 (by decide)⟩

/-- A state whose `sys.path` already contains the repo directory, but not in
first position. -/
def repoMidWorld : World :=
  { w₀ with
    sysPath := ["/usr/lib/python3", "/home/pi/yolov5"],
    dirs := ["/home/pi/yolov5"] }

/-- C8 counterexample: when the resolved repo directory is already present in
`sys.path` (not at the front), `ensure_repo_on_path` leaves `sys.path`
unchanged, so the directory is NOT the first entry after resolution. -/
theorem repo_not_promoted_to_front :
    ensure_repo_on_path repoMidWorld = .ok ("/home/pi/yolov5", repoMidWorld) ∧
    repoMidWorld.sysPath.head? ≠ some "/home/pi/yolov5" := by
  constructor
  · rfl
  · decide

/-- C8 (amended): `ensure_repo_on_path` inserts the resolved repo directory at
the front of `sys.path` only when it is absent from it; if the directory is
already present anywhere in `sys.path`, the path is left unchanged (so the
directory need not end up first). -/
theorem ensure_repo_path_insertion (w : World) :
    (w.dirs.contains (expanduser w.homeDir "~/yolov5") = true →
      w.sysPath.contains (expanduser w.homeDir "~/yolov5") = false →
      ensure_repo_on_path w
        = .ok (expanduser w.homeDir "~/yolov5",
            { w with sysPath := expanduser w.homeDir "~/yolov5" :: w.sysPath })) ∧
    (w.dirs.contains (expanduser w.homeDir "~/yolov5") = true →
      w.sysPath.contains (expanduser w.homeDir "~/yolov5") = true →
      ensure_repo_on_path w = .ok (expanduser w.homeDir "~/yolov5", w)) := by
  constructor
  · intro hd hp
    have hd₂ : expanduser w.homeDir "~/yolov5" ∈ w.dirs := by simpa using hd
    have hp₂ : expanduser w.homeDir "~/yolov5" ∉ w.sysPath := by simpa using hp
    simp [ensure_repo_on_path, hd₂, hp₂]
  · intro hd hp
    have hd₂ : expanduser w.homeDir "~/yolov5" ∈ w.dirs := by simpa using hd
    have hp₂ : expanduser w.homeDir "~/yolov5" ∈ w.sysPath := by simpa using hp
    simp [ensure_repo_on_path, hd₂, hp₂]

/-- C8 witness: with the repo directory existing and absent from `sys.path`,
it is inserted at the front. -/
theorem ensure_repo_path_insertion_witness :
    ensure_repo_on_path { w₀ with dirs := ["/home/pi/yolov5"] }
      = .ok (expanduser w₀.homeDir "~/yolov5",
          { w₀ with dirs := ["/home/pi/yolov5"],
                    sysPath := [expanduser w₀.homeDir "~/yolov5"] }) :=
  (ensure_repo_path_insertion { w₀ with dirs := ["/home/pi/yolov5"] }).1
    (by decide) (by decide)

/-- C9: for each installation-suppression variable, `setEnvDefaults` keeps a
caller-provided binding unchanged and otherwise binds `YOLOV5_AUTOINSTALL` to
`"0"` and `ULTRALYTICS_NO_AUTOINSTALL` to `"1"`; and this is exactly the
environment in force at the `runpy` invocation. -/
theorem env_toggles_set_only_if_absent (w : World) :
    (w.environ.lookup "YOLOV5_AUTOINSTALL" = none →
      (setEnvDefaults w).environ.lookup "YOLOV5_AUTOINSTALL" = some "0") ∧
    (∀ v, w.environ.lookup "YOLOV5_AUTOINSTALL" = some v →
      (setEnvDefaults w).environ.lookup "YOLOV5_AUTOINSTALL" = some v) ∧
    (w.environ.lookup "ULTRALYTICS_NO_AUTOINSTALL" = none →
      (setEnvDefaults w).environ.lookup "ULTRALYTICS_NO_AUTOINSTALL"
        = some "1") ∧
    (∀ v, w.environ.lookup "ULTRALYTICS_NO_AUTOINSTALL" = some v →
      (setEnvDefaults w).environ.lookup "ULTRALYTICS_NO_AUTOINSTALL"
        = some v) ∧
    (∀ repo wpath args,
      (preRunWorld repo wpath args w).environ = (setEnvDefaults w).environ) := by
  have hne : "YOLOV5_AUTOINSTALL" ≠ "ULTRALYTICS_NO_AUTOINSTALL" := by decide
  have hne₂ : "ULTRALYTICS_NO_AUTOINSTALL" ≠ "YOLOV5_AUTOINSTALL" := by decide
  have henv : (setEnvDefaults w).environ
      = setdefaultEnv (setdefaultEnv w.environ "YOLOV5_AUTOINSTALL" "0")
          "ULTRALYTICS_NO_AUTOINSTALL" "1" := by
    simp only [setEnvDefaults]
  refine ⟨?_, ?_, ?_, ?_, ?_⟩
  · intro h
    rw [henv, sde_lookup_ne _ _ _ _ hne]
    exact sde_lookup_of_none _ _ _ h
  · intro v h
    rw [henv, sde_lookup_ne _ _ _ _ hne]
    exact sde_lookup_of_some _ _ _ _ h
  · intro h
    rw [henv]
    exact sde_lookup_of_none _ _ _ (by rw [sde_lookup_ne _ _ _ _ hne₂]; exact h)
  · intro v h
    rw [henv]
    exact sde_lookup_of_some _ _ _ _ (by rw [sde_lookup_ne _ _ _ _ hne₂]; exact h)
  · intro repo wpath args
    simp only [preRunWorld, setEnvDefaults]

/-- C9 witness: with `YOLOV5_AUTOINSTALL` pre-set by the caller, its value is
kept and the absent `ULTRALYTICS_NO_AUTOINSTALL` is bound to `"1"`. -/
theorem env_toggles_set_only_if_absent_witness :
    (setEnvDefaults { w₀ with environ := [("YOLOV5_AUTOINSTALL", "5")] }).environ.lookup
        "YOLOV5_AUTOINSTALL" = some "5" ∧
    (setEnvDefaults { w₀ with environ := [("YOLOV5_AUTOINSTALL", "5")] }).environ.lookup
        "ULTRALYTICS_NO_AUTOINSTALL" = some "1" :=
  ⟨(env_toggles_set_only_if_absent _).2.1 "5" (by decide),
   (env_toggles_set_only_if_absent _).2.2.1 (by decide)⟩

/-- C3: if the weights path does not name an existing file after
user-relative expansion, `main` raises `SystemExit` (non-zero status) with
the weights diagnostic, the final world is exactly the initial one (no
registry insertion, no pathlib patch, no `sys.path` or environment change),
and the export script is never invoked. -/
theorem missing_weights_exits_without_mutation (args : Args) (run : RunFn)
    (w : World)
    (hf : w.files.contains (expanduser w.homeDir args.weights) = false) :
    mainFn args run w
        = .exitErr ("[ERR] 找不到權重：" ++ expanduser w.homeDir args.weights) w ∧
    (mainFn args run w).exitedNonzero = true ∧
    (mainFn args run w).callArgv = none := by
  have hnot : expanduser w.homeDir args.weights ∉ w.files := by simpa using hf
  have h : mainFn args run w
      = .exitErr ("[ERR] 找不到權重：" ++ expanduser w.homeDir args.weights) w := by
    simp [mainFn, hnot]
  exact ⟨h, by rw [h]; rfl, by rw [h]; rfl⟩

/-- A parsed configuration with the argparse defaults
(`imgsz 640`, `opset 12`, flags off). -/
def argsDefault : Args :=
  { weights := "~/best.pt", imgsz := 640, opset := 12,
    dynamic := false, simplify := false }

/-- A delegated run that returns normally and leaves the world unchanged. -/
def runNoop : RunFn := fun _ w => (w, none)

/-- C3 witness: a weights file that does not exist in the baseline state. -/
theorem missing_weights_exits_without_mutation_witness :
    mainFn argsDefault runNoop w₀
        = .exitErr ("[ERR] 找不到權重：" ++ expanduser w₀.homeDir "~/best.pt") w₀ ∧
    (mainFn argsDefault runNoop w₀).callArgv = none :=
  ⟨(missing_weights_exits_without_mutation argsDefault runNoop w₀ (by decide)).1,
   (missing_weights_exits_without_mutation argsDefault runNoop w₀ (by decide)).2.2⟩

/-- C10: if `import onnx` fails (with the weights file present), `main`
raises `SystemExit` (non-zero status) with the pip-install remediation hint,
and the final world is exactly the initial one: no stub inserted, no pathlib
patch, no `sys.path` or environment change, and the export script never
invoked. -/
theorem missing_onnx_exits_without_mutation (args : Args) (run : RunFn)
    (w : World)
    (hf : w.files.contains (expanduser w.homeDir args.weights) = true)
    (ho : w.onnxImportable = false) :
    mainFn args run w
        = .exitErr "[ERR] 尚未安裝 onnx，請先：pip install onnx" w ∧
    (mainFn args run w).exitedNonzero = true ∧
    (mainFn args run w).callArgv = none := by
  have hmemf : expanduser w.homeDir args.weights ∈ w.files := by simpa using hf
  have h : mainFn args run w
      = .exitErr "[ERR] 尚未安裝 onnx，請先：pip install onnx" w := by
    simp [mainFn, hmemf, ho]
  exact ⟨h, by rw [h]; rfl, by rw [h]; rfl⟩

/-- C10 witness: weights present but `onnx` missing in the baseline state. -/
theorem missing_onnx_exits_without_mutation_witness :
    mainFn argsDefault runNoop
        { w₀ with files := ["/home/pi/best.pt"], onnxImportable := false }
      = .exitErr "[ERR] 尚未安裝 onnx，請先：pip install onnx"
          { w₀ with files := ["/home/pi/best.pt"], onnxImportable := false } :=
  (missing_onnx_exits_without_mutation argsDefault runNoop
    { w₀ with files := ["/home/pi/best.pt"], onnxImportable := false }
    (by decide) (by decide)).1

/-- C6: if the framework installation directory `~/yolov5` does not exist
(weights present, `onnx` importable), `main` raises `SystemExit` (non-zero
status) with the repo diagnostic; the export script is never invoked.  The
final world is the one produced by the patch/stub steps only. -/
theorem missing_repo_exits_before_framework (args : Args) (run : RunFn)
    (w : World)
    (hf : w.files.contains (expanduser w.homeDir args.weights) = true)
    (ho : w.onnxImportable = true)
    (hd : w.dirs.contains (expanduser w.homeDir "~/yolov5") = false) :
    mainFn args run w
        = .exitErr ("[ERR] 找不到 YOLOv5 目錄：" ++ expanduser w.homeDir "~/yolov5")
            (stub_optional_packages (patch_pathlib_only (importOnnx w))) ∧
    (mainFn args run w).callArgv = none ∧
    (mainFn args run w).exitedNonzero = true := by
  have hw₂d :
      (stub_optional_packages (patch_pathlib_only (importOnnx w))).dirs
        = w.dirs := by
    rw [stub_dirs, patch_dirs, importOnnx_dirs]
  have hw₂h :
      (stub_optional_packages (patch_pathlib_only (importOnnx w))).homeDir
        = w.homeDir := by
    rw [stub_homeDir, patch_homeDir, importOnnx_homeDir]
  have hmem : ¬ expanduser w.homeDir "~/yolov5" ∈ w.dirs := by simpa using hd
  have hrep :
      ensure_repo_on_path (stub_optional_packages (patch_pathlib_only
          (importOnnx w)))
        = .error ("[ERR] 找不到 YOLOv5 目錄：" ++ expanduser w.homeDir "~/yolov5") := by
    simp [ensure_repo_on_path, hw₂d, hw₂h, hmem]
  have hmemf : expanduser w.homeDir args.weights ∈ w.files := by simpa using hf
  have h : mainFn args run w
      = .exitErr ("[ERR] 找不到 YOLOv5 目錄：" ++ expanduser w.homeDir "~/yolov5")
          (stub_optional_packages (patch_pathlib_only (importOnnx w))) := by
    simp [mainFn, hmemf, ho, hrep]
  exact ⟨h, by rw [h]; rfl, by rw [h]; rfl⟩

/-- C6 witness: weights and `onnx` present but no `~/yolov5` directory. -/
theorem missing_repo_exits_before_framework_witness :
    (mainFn argsDefault runNoop { w₀ with files := ["/home/pi/best.pt"] }).callArgv
      = none :=
  (missing_repo_exits_before_framework argsDefault runNoop
    { w₀ with files := ["/home/pi/best.pt"] }
    (by decide) (by decide) (by decide)).2.1

/-- The argument vector handed to `invokeExport`, and through it to the
delegated script, never invoked in an error run. -/
theorem invokeExport_callArgv (repo wpath : String) (args : Args)
    (run : RunFn) (w : World) :
    (invokeExport repo wpath args run w).callArgv
      = some (buildArgv repo wpath args) := by
  simp only [invokeExport]
  rcases hr : run (buildArgv repo wpath args) (preRunWorld repo wpath args w)
    with ⟨we, oe⟩
  cases oe <;> rfl

/-- C1: in a run that reaches the invocation (weights file present, `onnx`
present and importable, repo directory present), the vector handed to the
delegated export script is exactly `[repo/export.py, --weights,
expanduser(weights), --include, onnx, --imgsz, str(imgsz), --opset,
str(opset)]` with `--dynamic` appended iff the dynamic flag is set and
`--simplify` appended iff the simplify flag is set; in particular with the
default `imgsz`/`opset` and no flags it ends with `--imgsz 640 --opset 12`. -/
theorem mainFn_synthesized_argv (args : Args) (run : RunFn) (w : World)
    (hf : w.files.contains (expanduser w.homeDir args.weights) = true)
    (ho : w.onnxImportable = true)
    (hd : w.dirs.contains (expanduser w.homeDir "~/yolov5") = true) :
    (mainFn args run w).callArgv
        = some ([joinPath (expanduser w.homeDir "~/yolov5") "export.py",
            "--weights", expanduser w.homeDir args.weights,
            "--include", "onnx",
            "--imgsz", toString args.imgsz,
            "--opset", toString args.opset]
          ++ (if args.dynamic then ["--dynamic"] else [])
          ++ (if args.simplify then ["--simplify"] else [])) ∧
    (args.imgsz = 640 → args.opset = 12 →
      args.dynamic = false → args.simplify = false →
      (mainFn args run w).callArgv
        = some [joinPath (expanduser w.homeDir "~/yolov5") "export.py",
            "--weights", expanduser w.homeDir args.weights,
            "--include", "onnx",
            "--imgsz", "640",
            "--opset", "12"]) := by
  have hw₂d :
      (stub_optional_packages (patch_pathlib_only (importOnnx w))).dirs
        = w.dirs := by
    rw [stub_dirs, patch_dirs, importOnnx_dirs]
  have hw₂h :
      (stub_optional_packages (patch_pathlib_only (importOnnx w))).homeDir
        = w.homeDir := by
    rw [stub_homeDir, patch_homeDir, importOnnx_homeDir]
  have hmem : expanduser w.homeDir "~/yolov5" ∈ w.dirs := by simpa using hd
  have hmain : (mainFn args run w).callArgv
      = some (buildArgv (expanduser w.homeDir "~/yolov5")
          (expanduser w.homeDir args.weights) args) := by
    by_cases hp : expanduser w.homeDir "~/yolov5"
        ∈ (stub_optional_packages (patch_pathlib_only (importOnnx w))).sysPath
    · have hrep :
          ensure_repo_on_path (stub_optional_packages (patch_pathlib_only
              (importOnnx w)))
            = .ok (expanduser w.homeDir "~/yolov5",
                stub_optional_packages (patch_pathlib_only (importOnnx w))) := by
        simp [ensure_repo_on_path, hw₂d, hw₂h, hmem, hp]
      have hmemf : expanduser w.homeDir args.weights ∈ w.files := by
        simpa using hf
      simp [mainFn, hmemf, ho, hrep, invokeExport_callArgv]
    · have hrep :
          ensure_repo_on_path (stub_optional_packages (patch_pathlib_only
              (importOnnx w)))
            = .ok (expanduser w.homeDir "~/yolov5",
                { stub_optional_packages (patch_pathlib_only (importOnnx w)) with
                  sysPath := expanduser w.homeDir "~/yolov5" ::
                    (stub_optional_packages (patch_pathlib_only
                      (importOnnx w))).sysPath }) := by
        simp [ensure_repo_on_path, hw₂d, hw₂h, hmem, hp]
      have hmemf : expanduser w.homeDir args.weights ∈ w.files := by
        simpa using hf
      simp [mainFn, hmemf, ho, hrep, invokeExport_callArgv]
  constructor
  · rw [hmain]
    simp [buildArgv]
  · intro h₁ h₂ h₃ h₄
    have ht₁ : toString (640 : Int) = "640" := by decide
    have ht₂ : toString (12 : Int) = "12" := by decide
    rw [hmain]
    simp [buildArgv, h₁, h₂, h₃, h₄, ht₁, ht₂]

/-- The state in which the happy path is exercised: weights file and repo
directory both exist. -/
def happyWorld : World :=
  { w₀ with files := ["/home/pi/best.pt"], dirs := ["/home/pi/yolov5"] }

/-- C1 witness: the default configuration on the happy-path state. -/
theorem mainFn_synthesized_argv_witness :
    (mainFn argsDefault runNoop happyWorld).callArgv
      = some [joinPath (expanduser happyWorld.homeDir "~/yolov5") "export.py",
          "--weights", expanduser happyWorld.homeDir "~/best.pt",
          "--include", "onnx",
          "--imgsz", "640",
          "--opset", "12"] :=
  (mainFn_synthesized_argv argsDefault runNoop happyWorld
    (by decide) (by decide) (by decide)).2 rfl rfl rfl rfl

/-- C7: an exception of the delegated export script is not caught or
translated — it propagates as-is, the process exits non-zero, and the shim
prints nothing further (in particular not the success notice); the success
notice is printed exactly when the delegated script returns normally. -/
theorem export_exception_propagates (repo wpath : String) (args : Args)
    (run : RunFn) (w : World) :
    (∀ we e,
      run (buildArgv repo wpath args) (preRunWorld repo wpath args w)
          = (we, some e) →
      invokeExport repo wpath args run w
          = .propagated e we (buildArgv repo wpath args) ∧
        (invokeExport repo wpath args run w).exitedNonzero = true ∧
        (invokeExport repo wpath args run w).output = we.printed) ∧
    (∀ we,
      run (buildArgv repo wpath args) (preRunWorld repo wpath args w)
          = (we, none) →
      invokeExport repo wpath args run w
          = .ok { we with printed := we.printed ++ [okMsg] }
              (buildArgv repo wpath args)) := by
  constructor
  · intro we e hr
    have h : invokeExport repo wpath args run w
        = .propagated e we (buildArgv repo wpath args) := by
      simp only [invokeExport]
      rw [hr]
    exact ⟨h, by rw [h]; rfl, by rw [h]; rfl⟩
  · intro we hr
    simp only [invokeExport]
    rw [hr]

/-- A delegated run that raises, leaving the world as it found it. -/
def runRaises : RunFn := fun _ w => (w, some "RuntimeError")

/-- C7 witness: a raising export script yields a propagated non-zero exit
with no success notice appended. -/
theorem export_exception_propagates_witness :
    invokeExport "/home/pi/yolov5" "/home/pi/best.pt" argsDefault runRaises w₀
      = .propagated "RuntimeError"
          (preRunWorld "/home/pi/yolov5" "/home/pi/best.pt" argsDefault w₀)
          (buildArgv "/home/pi/yolov5" "/home/pi/best.pt" argsDefault) :=
  ((export_exception_propagates "/home/pi/yolov5" "/home/pi/best.pt"
      argsDefault runRaises w₀).1 _ _ rfl).1
